import Mathlib

/-! Shallow embedding of `gqcnn/image_grasp_sampler.py`: the force-closure
test, the antipodal depth-image grasp sampler, the suction and multi-suction
point samplers, and the seeding facade `ImageGraspSampler.sample`.

Modelling conventions: machine floats are real numbers; external library
routines that the module calls but does not define (numpy gradients, the
random draws of `np.random`/`scipy.stats`, the perception image transforms,
camera deprojection, the `Grasp2D.width_px` projection) enter the embedded
functions as explicit oracle arguments, so every branch and arithmetic step
written in the module itself is reproduced literally. Random draws are
modelled as oracles indexed by the loop counter at which the corresponding
call site fires: the call order is deterministic given the inputs, so any
realizable stream of draws corresponds to one `GlobalRng` value, and a call
that consumes the process-wide generator state is a pure function of that
value. -/

namespace GQCNN

open scoped Classical

/-! ## Vectors and scalar helpers -/

/-- 2-element numpy array: pixel coordinates `(row, col)` or a 2D normal. -/
abbrev Vec2 : Type := ℝ × ℝ

/-- 3-element numpy array: point-cloud entries and suction axes. -/
abbrev Vec3 : Type := ℝ × ℝ × ℝ

/-- `u.dot(v)` for 2-element arrays. -/
def dot2 (u v : Vec2) : ℝ := u.1 * v.1 + u.2 * v.2

/-- `np.linalg.norm` of a 2-element array. -/
noncomputable def norm2 (u : Vec2) : ℝ := Real.sqrt (u.1 ^ 2 + u.2 ^ 2)

/-- Componentwise division of a 2-element array by a scalar. -/
noncomputable def sdiv2 (u : Vec2) (c : ℝ) : Vec2 := (u.1 / c, u.2 / c)

/-- `max(min(x, 1.0), -1.0)`: the clamp applied before `arccos`
(`force_closure` lines 59-60, vectorized pass lines 422-425, suction angle
checks lines 680 and 893). -/
def clamp1 (x : ℝ) : ℝ := max (min x 1) (-1)

/-- `u.dot(v)` for 3-element arrays. -/
def dot3 (u v : Vec3) : ℝ := u.1 * v.1 + u.2.1 * v.2.1 + u.2.2 * v.2.2

/-- `np.linalg.norm` of a 3-element array. -/
noncomputable def norm3 (u : Vec3) : ℝ := Real.sqrt (u.1 ^ 2 + u.2.1 ^ 2 + u.2.2 ^ 2)

/-- Componentwise division of a 3-element array by a scalar. -/
noncomputable def sdiv3 (u : Vec3) (c : ℝ) : Vec3 := (u.1 / c, u.2.1 / c, u.2.2 / c)

/-- Negation of a 3-element array. -/
def v3neg (u : Vec3) : Vec3 := (-u.1, -u.2.1, -u.2.2)

/-- Componentwise sum of 3-element arrays. -/
def v3add (u v : Vec3) : Vec3 := (u.1 + v.1, u.2.1 + v.2.1, u.2.2 + v.2.2)

/-- Scalar multiple of a 3-element array. -/
def v3smul (c : ℝ) (v : Vec3) : Vec3 := (c * v.1, c * v.2.1, c * v.2.2)

/-- `np.cross` of 3-element arrays. -/
def cross3 (u v : Vec3) : Vec3 :=
  (u.2.1 * v.2.2 - u.2.2 * v.2.1, u.2.2 * v.1 - u.1 * v.2.2, u.1 * v.2.1 - u.2.1 * v.1)

/-- A 3×3 matrix given by its three columns. -/
abbrev Mat3 : Type := Vec3 × Vec3 × Vec3

/-- Matrix–vector product for the column representation. -/
def mulVec (A : Mat3) (v : Vec3) : Vec3 :=
  v3add (v3add (v3smul v.1 A.1) (v3smul v.2.1 A.2.1)) (v3smul v.2.2 A.2.2)

/-- Matrix–matrix product for the column representation. -/
def mulMat (A B : Mat3) : Mat3 := (mulVec A B.1, mulVec A B.2.1, mulVec A B.2.2)

/-- `RigidTransform.x_axis_rotation(theta)` (external `autolab_core`):
rotation about the x axis, given by its columns. -/
noncomputable def x_axis_rotation (theta : ℝ) : Mat3 :=
  ((1, 0, 0), (0, Real.cos theta, Real.sin theta), (0, -Real.sin theta, Real.cos theta))

/-- `np.deg2rad`, applied to `max_suction_dir_optical_axis_angle` by the
suction constructors (lines 538 and 728). -/
noncomputable def deg2rad (x : ℝ) : ℝ := x * Real.pi / 180

/-- Casting an integer pixel to the float 2-vector numpy arithmetic uses. -/
def ivec (p : ℤ × ℤ) : Vec2 := ((p.1 : ℝ), (p.2 : ℝ))

/-! ## Force closure and the vectorized antipodality pass -/

/-- `force_closure(p1, p2, n1, n2, mu)` (lines 51-63): `v = (p2-p1)/|p2-p1|`,
`alpha = arctan(mu)`; both clamped dot products `n1.(-v)` and `n2.v` must
have `arccos` strictly below `alpha`. -/
noncomputable def force_closure (p1 p2 n1 n2 : Vec2) (mu : ℝ) : Prop :=
  Real.arccos (clamp1 (dot2 n1 (-(sdiv2 (p2 - p1) (norm2 (p2 - p1)))))) < Real.arctan mu ∧
  Real.arccos (clamp1 (dot2 n2 (sdiv2 (p2 - p1) (norm2 (p2 - p1))))) < Real.arctan mu

/-- One pair of the vectorized second antipodality pass (lines 417-429):
`v = (p1-p2)/|p1-p2|`, `ip1 = n1.v`, `ip2 = n2.(-v)`, both clamped into
[-1, 1], and `beta1 = arccos(ip1) < arctan(mu)`, `beta2 = arccos(ip2) <
arctan(mu)`. -/
noncomputable def antipodal_second_pass (p1 p2 n1 n2 : Vec2) (mu : ℝ) : Prop :=
  Real.arccos (clamp1 (dot2 n1 (sdiv2 (p1 - p2) (norm2 (p1 - p2))))) < Real.arctan mu ∧
  Real.arccos (clamp1 (dot2 n2 (-(sdiv2 (p1 - p2) (norm2 (p1 - p2)))))) < Real.arctan mu

/-! ## Depth images, configuration and randomness oracles -/

/-- Modes for sampling grasp depth (`DepthSamplingMode`, lines 65-69). -/
inductive DepthSamplingMode where
  | uniform
  | min
  | max
deriving DecidableEq

/-- `_sample_depth(min_depth, max_depth)` (lines 256-263); `rand` is the
`np.random.rand()` draw the UNIFORM branch consumes, the default is
`max_depth`. -/
noncomputable def sample_depth (mode : DepthSamplingMode) (rand min_depth max_depth : ℝ) : ℝ :=
  if mode = DepthSamplingMode.uniform then min_depth + (max_depth - min_depth) * rand
  else if mode = DepthSamplingMode.min then min_depth
  else max_depth

/-- Depth image as read by the sampler: `data` models the 2D array with
`(row, col)` addressing, together with its height and width. -/
structure DepthIm where
  height : ℤ
  width : ℤ
  data : ℤ → ℤ → ℝ

/-- The integers of `[a, b)`: the index set of a numpy slice `a:b` for the
in-range windows that occur here. -/
def intRange (a b : ℤ) : List ℤ := (List.range (b - a).toNat).map fun k => a + (k : ℤ)

/-- `np.min` of the listed values. numpy raises on an empty array; the empty
case, never reached in the runs evaluated below, is mapped to 0. -/
noncomputable def listMin : List ℝ → ℝ
  | [] => 0
  | x :: xs => xs.foldl min x

/-- `np.min(depth_im.data[r-h:r+h, c-w:c+w])` around the real-valued grasp
center `(r, c)` (lines 479-480). Legacy numpy truncates the float slice
bounds; on the nonnegative in-range coordinates that occur this is
`Int.floor`. -/
noncomputable def winMin (im : DepthIm) (center : ℝ × ℝ) (h w : ℤ) : ℝ :=
  listMin ((intRange ⌊center.1 - (h : ℝ)⌋ ⌊center.1 + (h : ℝ)⌋).flatMap fun i =>
    (intRange ⌊center.2 - (w : ℝ)⌋ ⌊center.2 + (w : ℝ)⌋).map fun j => im.data i j)

/-- The antipodal sampler's configuration (constructor lines 199-236): the
fields the grasp computation reads. `depth_samples_per_grasp` holds the raw
config value; the constructor's `max(..., 1)` (line 223) is
`AntipodalConfig.depth_samples`. -/
structure AntipodalConfig where
  gripper_width : ℝ
  friction_coef : ℝ
  max_rejection_samples : ℕ
  min_dist_from_boundary : ℝ
  depth_samples_per_grasp : ℕ
  min_depth_offset : ℝ
  max_depth_offset : ℝ
  depth_sample_win_height : ℤ
  depth_sample_win_width : ℤ
  depth_sampling_mode : DepthSamplingMode
  grasp_center_sigma : ℝ
  grasp_angle_sigma : ℝ

/-- `self._depth_samples_per_grasp = max(self._config[...], 1)` (line 223). -/
def AntipodalConfig.depth_samples (c : AntipodalConfig) : ℕ :=
  max c.depth_samples_per_grasp 1

/-- Configuration of the two suction samplers (constructor lines 533-561 and
723-751). `max_suction_dir_optical_axis_angle` is stored in degrees as in
the config mapping; the samplers apply `deg2rad` where the constructor
does. -/
structure SuctionConfig where
  max_suction_dir_optical_axis_angle : ℝ
  min_dist_from_boundary : ℝ
  max_num_samples : ℕ

/-- Oracle for the process-wide random state the samplers consume: the
`np.random` calls and the `scipy.stats` draws, which all use the same global
numpy generator. Each field records the outcomes of one kind of call site,
indexed by the loop counters at which the call happens. -/
structure GlobalRng where
  /-- `np.random.choice(antipodal_indices, size, replace=False)` (line 436):
  the chosen elements of the given pool. -/
  choice_pairs : List ℕ → ℕ → List ℕ
  /-- `np.random.rand()` in the depth loop (line 487), at outer iteration k,
  depth sample i. -/
  rand : ℕ → ℕ → ℝ
  /-- `ss.multivariate_normal.rvs` center perturbation (line 465) at outer
  iteration k. -/
  center_perturb : ℕ → Vec2
  /-- `ss.norm.rvs` angle perturbation (line 467) at outer iteration k. -/
  angle_perturb : ℕ → ℝ
  /-- `np.random.choice(num_nonzero_px, size, replace=False)` (lines 654 and
  849): the chosen positions. -/
  choice_px : ℕ → ℕ → List ℕ
  /-- `self._depth_rv.rvs(size=1)[0]` (line 676) at iteration k. -/
  depth_perturb : ℕ → ℝ
  /-- `np.random.rand()` for the multi-suction orientation (line 859) at
  iteration k. -/
  orient_rand : ℕ → ℝ

/-! ## Candidate grasp records -/

/-- The fields of a `Grasp2D` as the sampler constructs it (lines 488-494):
`center` is `Point([col, row])`, i.e. `(x, y)`. -/
structure Grasp2D where
  center : ℝ × ℝ
  angle : ℝ
  depth : ℝ
  width : ℝ
  contact_points : (ℤ × ℤ) × (ℤ × ℤ)
  contact_normals : Vec2 × Vec2

/-- The fields of a `SuctionPoint2D` as constructed at line 685: integer
pixel `center = Point([x, y])`, 3D approach `axis`, perturbed `depth`. -/
structure SuctionPoint2D where
  center : ℤ × ℤ
  axis : Vec3
  depth : ℝ

/-- The fields of a `MultiSuctionPoint2D` as constructed at line 898: the
6-DOF pose (rotation and translation) of the suction contact frame. -/
structure MultiSuctionPoint2D where
  rotation : Mat3
  translation : Vec3

/-- The approach axis of a multi-suction grasp: the x axis (first column) of
its pose rotation. -/
def MultiSuctionPoint2D.approach_axis (g : MultiSuctionPoint2D) : Vec3 := g.rotation.1

/-! ## Surface normals and the pairwise prunes -/

/-- `_surface_normals` per pixel (lines 244-252): `grad pix = (dy, dx)` is
the `np.gradient` oracle at the pixel; a zero-norm gradient falls back to
the default normal `[1, 0]`, and the result is normalized. -/
noncomputable def surface_normal (grad : ℤ × ℤ → Vec2) (pix : ℤ × ℤ) : Vec2 :=
  sdiv2 (if norm2 (grad pix) = 0 then (1, 0) else grad pix)
    (norm2 (if norm2 (grad pix) = 0 then (1, 0) else grad pix))

/-- Row-major enumeration of the index pairs of an n×n condition matrix, the
order `np.where` reports them in (line 403). -/
def pairIdx (n : ℕ) : List (ℕ × ℕ) :=
  (List.range n).flatMap fun i => (List.range n).map fun j => (i, j)

/-- The euclidean pixel distance that `ssd.squareform(ssd.pdist(...))`
tabulates (line 402). -/
noncomputable def pdist (p q : ℤ × ℤ) : ℝ :=
  Real.sqrt (((p.1 - q.1 : ℤ) : ℝ) ^ 2 + ((p.2 - q.2 : ℤ) : ℝ) ^ 2)

/-- The first-pass prune condition of line 403 on one pair of edge-pixel
indices: `normal_ip < -cos(arctan(mu))`, `dists < max_grasp_width_px` and
`dists > 0`, all strict. -/
noncomputable def first_prune (pixels : ℕ → ℤ × ℤ) (normals : ℕ → Vec2)
    (mu maxW : ℝ) (ij : ℕ × ℕ) : Prop :=
  dot2 (normals ij.1) (normals ij.2) < -Real.cos (Real.arctan mu) ∧
  pdist (pixels ij.1) (pixels ij.2) < maxW ∧
  pdist (pixels ij.1) (pixels ij.2) > 0

/-- `valid_indices` (lines 401-404): the index pairs that survive the
first-pass prune, in row-major order. -/
noncomputable def valid_pair_indices (edge_pixels : List (ℤ × ℤ))
    (grad : ℤ × ℤ → Vec2) (mu maxW : ℝ) : List (ℕ × ℕ) :=
  (pairIdx edge_pixels.length).filter fun ij =>
    decide (first_prune (fun i => edge_pixels.getD i (0, 0))
      (fun i => surface_normal grad (edge_pixels.getD i (0, 0))) mu maxW ij)

/-- `antipodal_indices` (lines 412-429): the positions, within the pruned
pair list, that pass the vectorized second antipodality pass. -/
noncomputable def antipodal_pass_indices (edge_pixels : List (ℤ × ℤ))
    (grad : ℤ × ℤ → Vec2) (mu maxW : ℝ) : List ℕ :=
  (List.range (valid_pair_indices edge_pixels grad mu maxW).length).filter fun t =>
    decide (antipodal_second_pass
      (ivec (edge_pixels.getD ((valid_pair_indices edge_pixels grad mu maxW).getD t (0, 0)).1 (0, 0)))
      (ivec (edge_pixels.getD ((valid_pair_indices edge_pixels grad mu maxW).getD t (0, 0)).2 (0, 0)))
      (surface_normal grad (edge_pixels.getD ((valid_pair_indices edge_pixels grad mu maxW).getD t (0, 0)).1 (0, 0)))
      (surface_normal grad (edge_pixels.getD ((valid_pair_indices edge_pixels grad mu maxW).getD t (0, 0)).2 (0, 0)))
      mu)

/-! ## The shared accumulation loop -/

/-- The rejection-sampling loop shared by the three samplers (`while k <
sample_size and len(...) < num_samples`, lines 445, 657, 852): the
candidate-count check runs at the top of each iteration, then the body of
that iteration appends its candidates — the antipodal depth loop may append
several without re-checking the bound. -/
def sampler_loop (num_samples : ℕ) (body : ℕ → List α) : List ℕ → List α → List α
  | [], acc => acc
  | k :: rest, acc =>
      if acc.length < num_samples then sampler_loop num_samples body rest (acc ++ body k)
      else acc

/-! ## The antipodal sampler -/

/-- One outer iteration of the grasp-construction loop (lines 445-504) at
counter `k`: the candidates it appends (empty when the boundary check
rejects or every depth window is invalid). `pixels`/`normals` look up the
edge arrays; `valid` is the pruned pair list, `grasp_indices` the
`np.random.choice` result. The boundary check (lines 470-473) reads the
UNPERTURBED `grasp_center`; `np.min(center_depth)`/`np.max(center_depth)`
of lines 485-486 act on a scalar and are the identity; the `isnan` test has
no counterpart on real numbers. -/
noncomputable def antipodal_body (cfg : AntipodalConfig) (rng : GlobalRng)
    (im : DepthIm) (pixels : ℕ → ℤ × ℤ) (normals : ℕ → Vec2)
    (valid : List (ℕ × ℕ)) (grasp_indices : List ℕ) (k : ℕ) : List Grasp2D :=
  let grasp_ind := grasp_indices.getD k 0
  let p1 := pixels (valid.getD grasp_ind (0, 0)).1
  let p2 := pixels (valid.getD grasp_ind (0, 0)).2
  let n1 := normals (valid.getD grasp_ind (0, 0)).1
  let n2 := normals (valid.getD grasp_ind (0, 0)).2
  let grasp_center : ℝ × ℝ := (((p1.1 + p2.1 : ℤ) : ℝ) / 2, ((p1.2 + p2.2 : ℤ) : ℝ) / 2)
  let grasp_axis := sdiv2 (ivec p2 - ivec p1) (norm2 (ivec p2 - ivec p1))
  let grasp_theta :=
    if grasp_axis.2 ≠ 0 then Real.arctan (grasp_axis.1 / grasp_axis.2) else Real.pi / 2
  let grasp_center_pt : ℝ × ℝ := (grasp_center.2, grasp_center.1)
  let grasp_center_pt :=
    if cfg.grasp_center_sigma > 0 then grasp_center_pt + rng.center_perturb k
    else grasp_center_pt
  let grasp_theta :=
    if cfg.grasp_angle_sigma > 0 then grasp_theta + rng.angle_perturb k else grasp_theta
  if grasp_center.1 < cfg.min_dist_from_boundary ∨
      grasp_center.2 < cfg.min_dist_from_boundary ∨
      grasp_center.1 > (im.height : ℝ) - cfg.min_dist_from_boundary ∨
      grasp_center.2 > (im.width : ℝ) - cfg.min_dist_from_boundary then []
  else
    (List.range cfg.depth_samples).flatMap fun i =>
      let center_depth := winMin im grasp_center cfg.depth_sample_win_height
        cfg.depth_sample_win_width
      if center_depth = 0 then []
      else
        let min_depth := center_depth + cfg.min_depth_offset
        let max_depth := center_depth + cfg.max_depth_offset
        let sample_d := min_depth + (max_depth - min_depth) * rng.rand k i
        [{ center := grasp_center_pt, angle := grasp_theta, depth := sample_d,
           width := cfg.gripper_width, contact_points := (p1, p2),
           contact_normals := (n1, n2) }]

/-- `_sample_antipodal_grasps` (lines 303-507) from the computed edge set
on. `edge_pixels` and `grad` stand in for the external edge-detection
transforms and `np.gradient` (lines 330-358 and 241); `maxW` for the
external `Grasp2D(...).width_px` projection of lines 398-400. Returns the
empty list at zero edge pixels (line 361) and when either pruning stage
leaves no pair (lines 409-410 and 433-434); otherwise it draws
`sample_size = min(max_rejection_samples, num_pairs)` pairs without
replacement and runs the accumulation loop. -/
noncomputable def sample_antipodal_grasps (cfg : AntipodalConfig) (rng : GlobalRng)
    (im : DepthIm) (edge_pixels : List (ℤ × ℤ)) (grad : ℤ × ℤ → Vec2)
    (maxW : ℝ) (num_samples : ℕ) : List Grasp2D :=
  if edge_pixels.length = 0 then []
  else if (valid_pair_indices edge_pixels grad cfg.friction_coef maxW).length = 0 then []
  else if (antipodal_pass_indices edge_pixels grad cfg.friction_coef maxW).length = 0 then []
  else
    sampler_loop num_samples
      (antipodal_body cfg rng im (fun i => edge_pixels.getD i (0, 0))
        (fun i => surface_normal grad (edge_pixels.getD i (0, 0)))
        (valid_pair_indices edge_pixels grad cfg.friction_coef maxW)
        (rng.choice_pairs (antipodal_pass_indices edge_pixels grad cfg.friction_coef maxW)
          (min cfg.max_rejection_samples
            (antipodal_pass_indices edge_pixels grad cfg.friction_coef maxW).length)))
      (List.range (min cfg.max_rejection_samples
        (antipodal_pass_indices edge_pixels grad cfg.friction_coef maxW).length)) []

/-! ## The suction samplers -/

/-- One iteration of the single-contact suction loop (lines 657-695) at
counter `k`: the candidate it appends, if any. `point_cloud`/`normal_cloud`
are the external deprojection oracles with `(row, col)` addressing,
`nonzero_px` the external `nonzero_pixels()` result as `(row, col)` pairs,
`indices` the `np.random.choice` result, `constraint` the optional
constraint function. There is no check on the norm of the axis. -/
noncomputable def suction_body (cfg : SuctionConfig) (rng : GlobalRng) (im : DepthIm)
    (point_cloud normal_cloud : ℤ → ℤ → Vec3) (nonzero_px : List (ℤ × ℤ))
    (indices : List ℕ) (constraint : Option (SuctionPoint2D → Prop)) (k : ℕ) :
    List SuctionPoint2D :=
  let px := nonzero_px.getD (indices.getD k 0) (0, 0)
  let center_px : ℤ × ℤ := (px.2, px.1)
  let axis := v3neg (normal_cloud px.1 px.2)
  if (center_px.1 : ℝ) < cfg.min_dist_from_boundary ∨
      (center_px.2 : ℝ) < cfg.min_dist_from_boundary ∨
      (center_px.2 : ℝ) > (im.height : ℝ) - cfg.min_dist_from_boundary ∨
      (center_px.1 : ℝ) > (im.width : ℝ) - cfg.min_dist_from_boundary then []
  else
    let depth := (point_cloud px.1 px.2).2.2 + rng.depth_perturb k
    if Real.arccos (clamp1 (dot3 axis (0, 0, 1))) <
        deg2rad cfg.max_suction_dir_optical_axis_angle then
      if (constraint.elim True fun f => f ⟨center_px, axis, depth⟩) then
        [⟨center_px, axis, depth⟩]
      else []
    else []

/-- `DepthImageSuctionPointSampler._sample_suction_points` (lines 598-697)
from the deprojected cloud on: empty at zero nonzero-depth pixels (lines
643-645), otherwise `sample_size = min(max_num_samples, num_nonzero_px)`
positions are drawn without replacement and the accumulation loop runs. -/
noncomputable def sample_suction_points (cfg : SuctionConfig) (rng : GlobalRng)
    (im : DepthIm) (point_cloud normal_cloud : ℤ → ℤ → Vec3)
    (nonzero_px : List (ℤ × ℤ)) (constraint : Option (SuctionPoint2D → Prop))
    (num_samples : ℕ) : List SuctionPoint2D :=
  if nonzero_px.length = 0 then []
  else
    sampler_loop num_samples
      (suction_body cfg rng im point_cloud normal_cloud nonzero_px
        (rng.choice_px nonzero_px.length (min cfg.max_num_samples nonzero_px.length))
        constraint)
      (List.range (min cfg.max_num_samples nonzero_px.length)) []

/-- One iteration of the multi-suction loop (lines 852-908) at counter `k`.
Unlike the single-contact sampler it skips a zero-norm axis (lines
864-866); the pose columns are built from the axis (lines 869-877), with
the fixed random rotation about the approach axis applied on the right. -/
noncomputable def multi_suction_body (cfg : SuctionConfig) (rng : GlobalRng) (im : DepthIm)
    (point_cloud normal_cloud : ℤ → ℤ → Vec3) (nonzero_px : List (ℤ × ℤ))
    (indices : List ℕ) (constraint : Option (MultiSuctionPoint2D → Prop)) (k : ℕ) :
    List MultiSuctionPoint2D :=
  let px := nonzero_px.getD (indices.getD k 0) (0, 0)
  let center_px : ℤ × ℤ := (px.2, px.1)
  let axis := v3neg (normal_cloud px.1 px.2)
  let orientation := 2 * Real.pi * rng.orient_rand k
  if norm3 axis = 0 then []
  else
    let x_axis := axis
    let y_axis0 : Vec3 := (axis.2.1, -axis.1, 0)
    let y_axis1 := if norm3 y_axis0 = 0 then ((1 : ℝ), (0 : ℝ), (0 : ℝ)) else y_axis0
    let y_axis := sdiv3 y_axis1 (norm3 y_axis1)
    let R := mulMat (x_axis, y_axis, cross3 x_axis y_axis) (x_axis_rotation orientation)
    let t := point_cloud px.1 px.2
    if (center_px.1 : ℝ) < cfg.min_dist_from_boundary ∨
        (center_px.2 : ℝ) < cfg.min_dist_from_boundary ∨
        (center_px.2 : ℝ) > (im.height : ℝ) - cfg.min_dist_from_boundary ∨
        (center_px.1 : ℝ) > (im.width : ℝ) - cfg.min_dist_from_boundary then []
    else
      if Real.arccos (clamp1 (dot3 axis (0, 0, 1))) <
          deg2rad cfg.max_suction_dir_optical_axis_angle then
        if (constraint.elim True fun f => f ⟨R, t⟩) then [⟨R, t⟩] else []
      else []

/-- `DepthImageMultiSuctionPointSampler._sample_suction_points` (lines
791-910) from the deprojected cloud on. -/
noncomputable def sample_multi_suction_points (cfg : SuctionConfig) (rng : GlobalRng)
    (im : DepthIm) (point_cloud normal_cloud : ℤ → ℤ → Vec3)
    (nonzero_px : List (ℤ × ℤ)) (constraint : Option (MultiSuctionPoint2D → Prop))
    (num_samples : ℕ) : List MultiSuctionPoint2D :=
  if nonzero_px.length = 0 then []
  else
    sampler_loop num_samples
      (multi_suction_body cfg rng im point_cloud normal_cloud nonzero_px
        (rng.choice_px nonzero_px.length (min cfg.max_num_samples nonzero_px.length))
        constraint)
      (List.range (min cfg.max_num_samples nonzero_px.length)) []

/-! ## The seeding facade -/

/-- `random.seed(seed)` / `np.random.seed(seed)` (lines 114-117): the
generator state the call continues with — the deterministic `seed_state
seed` when a seed is given (both the python and numpy generators are
reseeded, and the scipy frozen distributions draw from the reseeded numpy
global generator), the caller's ambient state otherwise. -/
def reseed (seed_state : ℕ → GlobalRng) (state : GlobalRng) : Option ℕ → GlobalRng
  | some n => seed_state n
  | none => state

/-- `ImageGraspSampler.sample` (lines 86-128): reseed when a seed is given,
then run the strategy's `_sample` on the resulting generator state (the
image, intrinsics, mask and count arguments are baked into `strat`). -/
def ImageGraspSampler_sample (strat : GlobalRng → List α) (seed_state : ℕ → GlobalRng)
    (state : GlobalRng) (seed : Option ℕ) : List α :=
  strat (reseed seed_state state seed)


/-! ## Concrete instances for the evaluated runs -/

/-- A concrete random-draw oracle for the evaluated runs: the choice calls
pick the first pool position, the uniform draw is 1/2, the center
perturbation draw is (-5, -5). -/
noncomputable def cexRng : GlobalRng where
  choice_pairs := fun _ _ => [0]
  rand := fun _ _ => 1 / 2
  center_perturb := fun _ => (-5, -5)
  angle_perturb := fun _ => 0
  choice_px := fun _ _ => [0]
  depth_perturb := fun _ => 0
  orient_rand := fun _ => 0

/-- A flat 10×10 image of depth 5. -/
noncomputable def cexIm : DepthIm := ⟨10, 10, fun _ _ => 5⟩

/-- Two edge pixels on a vertical step, two rows apart. -/
def cexPix : List (ℤ × ℤ) := [(2, 2), (4, 2)]

/-- Gradient oracle: antiparallel row gradients at the two edge pixels. -/
noncomputable def cexGrad : ℤ × ℤ → Vec2 := fun p => if p = (2, 2) then (-1, 0) else (1, 0)

/-- Configuration of the C1 run: 2 depth samples per grasp, 1 requested
candidate. -/
noncomputable def c1Cfg : AntipodalConfig where
  gripper_width := 0
  friction_coef := 1
  max_rejection_samples := 1
  min_dist_from_boundary := 0
  depth_samples_per_grasp := 2
  min_depth_offset := 0
  max_depth_offset := 0
  depth_sample_win_height := 1
  depth_sample_win_width := 1
  depth_sampling_mode := DepthSamplingMode.uniform
  grasp_center_sigma := 0
  grasp_angle_sigma := 0

/-- Configuration of the C2 run: depth sampling mode MIN, distinct depth
offsets. -/
noncomputable def c2Cfg : AntipodalConfig :=
  { c1Cfg with
    depth_samples_per_grasp := 1
    max_depth_offset := 1 / 10
    depth_sampling_mode := DepthSamplingMode.min }

/-- Configuration of the C5 run: nonzero center-perturbation sigma and a
one-pixel boundary margin. -/
noncomputable def c5Cfg : AntipodalConfig :=
  { c1Cfg with
    depth_samples_per_grasp := 1
    min_dist_from_boundary := 1
    grasp_center_sigma := 1 }

/-- Edge pixels at distance exactly 2, for the C8 boundary case. -/
def c8Pix : List (ℤ × ℤ) := [(0, 0), (0, 2)]

/-- Gradient oracle for the C8 pair: antiparallel column gradients. -/
noncomputable def c8Grad : ℤ × ℤ → Vec2 := fun p => if p = (0, 0) then (0, -1) else (0, 1)

/-- Suction configuration with a 120-degree optical-axis limit. -/
noncomputable def c10Cfg : SuctionConfig := ⟨120, 0, 1⟩

/-- Normal-cloud oracle that is zero everywhere. -/
noncomputable def c10Nc : ℤ → ℤ → Vec3 := fun _ _ => (0, 0, 0)

/-- Point-cloud oracle at constant depth 7. -/
noncomputable def c10Pc : ℤ → ℤ → Vec3 := fun _ _ => (0, 0, 7)

/-! ## General lemmas about the embedded pipeline -/

lemma norm2_sub_comm (p q : Vec2) : norm2 (p - q) = norm2 (q - p) := by
  unfold norm2
  rw [Prod.fst_sub, Prod.snd_sub, Prod.fst_sub, Prod.snd_sub]
  ring_nf

lemma sdiv2_sub_neg (p q : Vec2) (c : ℝ) : sdiv2 (p - q) c = -(sdiv2 (q - p) c) := by
  unfold sdiv2
  rw [Prod.fst_sub, Prod.snd_sub, Prod.fst_sub, Prod.snd_sub]
  rw [Prod.neg_mk, Prod.mk.injEq]
  constructor <;> ring

lemma sampler_loop_zero (body : ℕ → List α) :
    ∀ (ks : List ℕ) (acc : List α), sampler_loop 0 body ks acc = acc := by
  intro ks
  induction ks with
  | nil => intro acc; rfl
  | cons k rest ih => intro acc; simp [sampler_loop]

lemma sampler_loop_length_le (n D : ℕ) (body : ℕ → List α)
    (hD : ∀ k, (body k).length ≤ D) :
    ∀ (ks : List ℕ) (acc : List α),
      (sampler_loop n body ks acc).length ≤ max acc.length (n - 1 + D) := by
  intro ks
  induction ks with
  | nil => intro acc; simp only [sampler_loop]; exact Nat.le_max_left _ _
  | cons k rest ih =>
    intro acc
    by_cases h : acc.length < n
    · have hacc : (acc ++ body k).length ≤ n - 1 + D := by
        rw [List.length_append]
        have h1 : acc.length ≤ n - 1 := Nat.le_pred_of_lt h
        exact Nat.add_le_add h1 (hD k)
      calc (sampler_loop n body (k :: rest) acc).length
          = (sampler_loop n body rest (acc ++ body k)).length := by
            simp [sampler_loop, h]
        _ ≤ max (acc ++ body k).length (n - 1 + D) := ih _
        _ ≤ n - 1 + D := Nat.max_le.mpr ⟨hacc, le_refl _⟩
        _ ≤ max acc.length (n - 1 + D) := Nat.le_max_right _ _
    · have : sampler_loop n body (k :: rest) acc = acc := by simp [sampler_loop, h]
      rw [this]
      exact Nat.le_max_left _ _

lemma sampler_loop_length_le_one (n : ℕ) (body : ℕ → List α)
    (h1 : ∀ k, (body k).length ≤ 1) (ks : List ℕ) :
    (sampler_loop n body ks []).length ≤ n := by
  cases n with
  | zero => simp [sampler_loop_zero]
  | succ m =>
    have h := sampler_loop_length_le (m + 1) 1 body h1 ks []
    simpa [Nat.succ_sub_one] using h

lemma sampler_loop_mem (n : ℕ) (body : ℕ → List α) (P : α → Prop)
    (hb : ∀ k x, x ∈ body k → P x) :
    ∀ (ks : List ℕ) (acc : List α), (∀ x ∈ acc, P x) →
      ∀ x ∈ sampler_loop n body ks acc, P x := by
  intro ks
  induction ks with
  | nil => intro acc hacc x hx; simp only [sampler_loop] at hx; exact hacc x hx
  | cons k rest ih =>
    intro acc hacc x hx
    by_cases h : acc.length < n
    · rw [show sampler_loop n body (k :: rest) acc
          = sampler_loop n body rest (acc ++ body k) by simp [sampler_loop, h]] at hx
      refine ih _ ?_ x hx
      intro y hy
      rcases List.mem_append.mp hy with h1 | h2
      exacts [hacc y h1, hb k y h2]
    · rw [show sampler_loop n body (k :: rest) acc = acc by simp [sampler_loop, h]] at hx
      exact hacc x hx

lemma flatMap_length_le_one (l : List β) (f : β → List α)
    (h : ∀ b, (f b).length ≤ 1) : (l.flatMap f).length ≤ l.length := by
  induction l with
  | nil => simp
  | cons b t ih =>
    rw [List.flatMap_cons, List.length_append, List.length_cons]
    have := h b
    omega

lemma antipodal_body_length (cfg : AntipodalConfig) (rng : GlobalRng) (im : DepthIm)
    (pixels : ℕ → ℤ × ℤ) (normals : ℕ → Vec2) (valid : List (ℕ × ℕ))
    (gi : List ℕ) (k : ℕ) :
    (antipodal_body cfg rng im pixels normals valid gi k).length ≤ cfg.depth_samples := by
  simp only [antipodal_body]
  split
  · simp
  · refine le_trans (flatMap_length_le_one _ _ ?_) (by simp)
    intro i
    split <;> simp

lemma suction_body_length (cfg : SuctionConfig) (rng : GlobalRng) (im : DepthIm)
    (pc nc : ℤ → ℤ → Vec3) (npx : List (ℤ × ℤ)) (idx : List ℕ)
    (cs : Option (SuctionPoint2D → Prop)) (k : ℕ) :
    (suction_body cfg rng im pc nc npx idx cs k).length ≤ 1 := by
  simp only [suction_body]
  split
  · simp
  · split
    · split <;> simp
    · simp

lemma multi_suction_body_length (cfg : SuctionConfig) (rng : GlobalRng) (im : DepthIm)
    (pc nc : ℤ → ℤ → Vec3) (npx : List (ℤ × ℤ)) (idx : List ℕ)
    (cm : Option (MultiSuctionPoint2D → Prop)) (k : ℕ) :
    (multi_suction_body cfg rng im pc nc npx idx cm k).length ≤ 1 := by
  simp only [multi_suction_body]
  repeat' split
  all_goals simp

lemma pairIdx_mem (n : ℕ) (i j : ℕ) : (i, j) ∈ pairIdx n ↔ i < n ∧ j < n := by
  simp [pairIdx, List.mem_flatMap, List.mem_map, List.mem_range]

/-! ## Claim theorems -/

/-- C1 (amended). The suction and multi-suction samplers return at most
`num_samples` candidates; the antipodal sampler returns at most
`num_samples - 1 + max(depth_samples_per_grasp, 1)` — its inner depth loop
appends up to `depth_samples_per_grasp` grasps after the count check — and
hence at most `num_samples` whenever `depth_samples_per_grasp <= 1`. -/
theorem sampler_candidate_count_bound
    (cfg : AntipodalConfig) (scfg : SuctionConfig) (rng : GlobalRng) (im : DepthIm)
    (edge_pixels : List (ℤ × ℤ)) (grad : ℤ × ℤ → Vec2) (maxW : ℝ)
    (pc nc : ℤ → ℤ → Vec3) (npx : List (ℤ × ℤ))
    (cs : Option (SuctionPoint2D → Prop)) (cm : Option (MultiSuctionPoint2D → Prop))
    (num_samples : ℕ) :
    (sample_antipodal_grasps cfg rng im edge_pixels grad maxW num_samples).length
        ≤ num_samples - 1 + cfg.depth_samples ∧
    (cfg.depth_samples_per_grasp ≤ 1 →
      (sample_antipodal_grasps cfg rng im edge_pixels grad maxW num_samples).length
        ≤ num_samples) ∧
    (sample_suction_points scfg rng im pc nc npx cs num_samples).length ≤ num_samples ∧
    (sample_multi_suction_points scfg rng im pc nc npx cm num_samples).length
        ≤ num_samples := by
  refine ⟨?_, ?_, ?_, ?_⟩
  · simp only [sample_antipodal_grasps]
    split
    · simp
    split
    · simp
    split
    · simp
    · have h := sampler_loop_length_le num_samples cfg.depth_samples
        (antipodal_body cfg rng im (fun i => edge_pixels.getD i (0, 0))
          (fun i => surface_normal grad (edge_pixels.getD i (0, 0)))
          (valid_pair_indices edge_pixels grad cfg.friction_coef maxW)
          (rng.choice_pairs (antipodal_pass_indices edge_pixels grad cfg.friction_coef maxW)
            (min cfg.max_rejection_samples
              (antipodal_pass_indices edge_pixels grad cfg.friction_coef maxW).length)))
        (fun k => antipodal_body_length cfg rng im _ _ _ _ k)
        (List.range (min cfg.max_rejection_samples
          (antipodal_pass_indices edge_pixels grad cfg.friction_coef maxW).length)) []
      simpa [Nat.zero_max] using h
  · intro hle
    have hD : cfg.depth_samples = 1 := by
      simp only [AntipodalConfig.depth_samples]
      omega
    simp only [sample_antipodal_grasps]
    split
    · simp
    split
    · simp
    split
    · simp
    · refine sampler_loop_length_le_one num_samples _ ?_ _
      intro k
      have h := antipodal_body_length cfg rng im
        (fun i => edge_pixels.getD i (0, 0))
        (fun i => surface_normal grad (edge_pixels.getD i (0, 0)))
        (valid_pair_indices edge_pixels grad cfg.friction_coef maxW)
        (rng.choice_pairs (antipodal_pass_indices edge_pixels grad cfg.friction_coef maxW)
          (min cfg.max_rejection_samples
            (antipodal_pass_indices edge_pixels grad cfg.friction_coef maxW).length)) k
      rwa [hD] at h
  · simp only [sample_suction_points]
    split
    · simp
    · exact sampler_loop_length_le_one num_samples _
        (suction_body_length scfg rng im pc nc npx _ cs) _
  · simp only [sample_multi_suction_points]
    split
    · simp
    · exact sampler_loop_length_le_one num_samples _
        (multi_suction_body_length scfg rng im pc nc npx _ cm) _

/-- C3. When a seed is given, `ImageGraspSampler.sample` reseeds the
process-wide generators before sampling, so for each of the three
strategies the returned candidate list does not depend on the ambient
generator state: two calls on identical inputs with the same seed agree. -/
theorem sample_seeded_deterministic (seed_state : ℕ → GlobalRng) (s1 s2 : GlobalRng)
    (n : ℕ) (cfg : AntipodalConfig) (scfg : SuctionConfig) (im : DepthIm)
    (edge_pixels : List (ℤ × ℤ)) (grad : ℤ × ℤ → Vec2) (maxW : ℝ)
    (pc nc : ℤ → ℤ → Vec3) (npx : List (ℤ × ℤ))
    (cs : Option (SuctionPoint2D → Prop)) (cm : Option (MultiSuctionPoint2D → Prop))
    (ns : ℕ) :
    ImageGraspSampler_sample
        (fun r => sample_antipodal_grasps cfg r im edge_pixels grad maxW ns)
        seed_state s1 (some n) =
      ImageGraspSampler_sample
        (fun r => sample_antipodal_grasps cfg r im edge_pixels grad maxW ns)
        seed_state s2 (some n) ∧
    ImageGraspSampler_sample (fun r => sample_suction_points scfg r im pc nc npx cs ns)
        seed_state s1 (some n) =
      ImageGraspSampler_sample (fun r => sample_suction_points scfg r im pc nc npx cs ns)
        seed_state s2 (some n) ∧
    ImageGraspSampler_sample
        (fun r => sample_multi_suction_points scfg r im pc nc npx cm ns)
        seed_state s1 (some n) =
      ImageGraspSampler_sample
        (fun r => sample_multi_suction_points scfg r im pc nc npx cm ns)
        seed_state s2 (some n) :=
  ⟨rfl, rfl, rfl⟩

/-- C4. Degenerate-empty inputs are normal control flow, not errors: the
antipodal sampler returns the empty list on zero edge pixels and when
either pruning stage leaves zero pairs, and the suction sampler returns the
empty list on zero nonzero-depth pixels. -/
theorem degenerate_inputs_empty (cfg : AntipodalConfig) (scfg : SuctionConfig)
    (rng : GlobalRng) (im : DepthIm) (edge_pixels : List (ℤ × ℤ))
    (grad : ℤ × ℤ → Vec2) (maxW : ℝ) (pc nc : ℤ → ℤ → Vec3)
    (cs : Option (SuctionPoint2D → Prop)) (n : ℕ) :
    sample_antipodal_grasps cfg rng im [] grad maxW n = [] ∧
    (valid_pair_indices edge_pixels grad cfg.friction_coef maxW = [] →
      sample_antipodal_grasps cfg rng im edge_pixels grad maxW n = []) ∧
    (antipodal_pass_indices edge_pixels grad cfg.friction_coef maxW = [] →
      sample_antipodal_grasps cfg rng im edge_pixels grad maxW n = []) ∧
    sample_suction_points scfg rng im pc nc [] cs n = [] := by
  refine ⟨?_, ?_, ?_, ?_⟩
  · simp [sample_antipodal_grasps]
  · intro h
    simp [sample_antipodal_grasps, h]
  · intro h
    simp [sample_antipodal_grasps, h]
  · simp [sample_suction_points]

/-- C8 (amended). The first-pass prune keeps exactly the pairs whose normal
inner product is strictly below `-cos(arctan(frictionCoef))` and whose pixel
distance lies in the OPEN interval `(0, maxGraspWidthPx)`: the upper
comparison is strict (`dists < max_grasp_width_px`), so a pair at distance
exactly the maximum pixel width is dropped. -/
theorem first_prune_membership (edge_pixels : List (ℤ × ℤ)) (grad : ℤ × ℤ → Vec2)
    (mu maxW : ℝ) (i j : ℕ) :
    ((i, j) ∈ valid_pair_indices edge_pixels grad mu maxW ↔
      (i < edge_pixels.length ∧ j < edge_pixels.length ∧
        dot2 (surface_normal grad (edge_pixels.getD i (0, 0)))
            (surface_normal grad (edge_pixels.getD j (0, 0))) <
          -Real.cos (Real.arctan mu) ∧
        0 < pdist (edge_pixels.getD i (0, 0)) (edge_pixels.getD j (0, 0)) ∧
        pdist (edge_pixels.getD i (0, 0)) (edge_pixels.getD j (0, 0)) < maxW)) := by
  unfold valid_pair_indices
  rw [List.mem_filter, pairIdx_mem]
  simp only [decide_eq_true_eq, first_prune, gt_iff_lt]
  tauto


lemma mulMat_x_rotation_fst (A : Mat3) (theta : ℝ) :
    (mulMat A (x_axis_rotation theta)).1 = A.1 := by
  simp [mulMat, x_axis_rotation, mulVec, v3add, v3smul]

lemma suction_body_angle (cfg : SuctionConfig) (rng : GlobalRng) (im : DepthIm)
    (pc nc : ℤ → ℤ → Vec3) (npx : List (ℤ × ℤ)) (idx : List ℕ)
    (cs : Option (SuctionPoint2D → Prop)) (k : ℕ) :
    ∀ c ∈ suction_body cfg rng im pc nc npx idx cs k,
      Real.arccos (clamp1 (dot3 c.axis (0, 0, 1))) <
        deg2rad cfg.max_suction_dir_optical_axis_angle := by
  intro c hc
  revert hc
  simp only [suction_body]
  split
  · simp
  · split
    · rename_i hpsi
      split
      · intro hc
        simp only [List.mem_singleton] at hc
        subst hc
        exact hpsi
      · simp
    · simp

lemma multi_suction_body_angle (cfg : SuctionConfig) (rng : GlobalRng) (im : DepthIm)
    (pc nc : ℤ → ℤ → Vec3) (npx : List (ℤ × ℤ)) (idx : List ℕ)
    (cm : Option (MultiSuctionPoint2D → Prop)) (k : ℕ) :
    ∀ g ∈ multi_suction_body cfg rng im pc nc npx idx cm k,
      Real.arccos (clamp1 (dot3 g.approach_axis (0, 0, 1))) <
        deg2rad cfg.max_suction_dir_optical_axis_angle := by
  intro g hg
  revert hg
  simp only [multi_suction_body]
  repeat' split
  all_goals intro hg
  all_goals simp only [List.mem_singleton, List.not_mem_nil] at hg
  all_goals subst hg
  all_goals simp only [MultiSuctionPoint2D.approach_axis, mulMat_x_rotation_fst]
  all_goals assumption

/-- C9. Every returned suction candidate and every returned multi-suction
candidate has computed angle to the camera optical axis `(0,0,1)` —
`arccos` of the clamped dot product with its approach axis — strictly below
`max_suction_dir_optical_axis_angle` converted from degrees to radians (for
the multi-suction pose the approach axis is the rotation's x column, which
the extra rotation about the approach axis leaves fixed). -/
theorem suction_angle_bound (cfg : SuctionConfig) (rng : GlobalRng) (im : DepthIm)
    (pc nc : ℤ → ℤ → Vec3) (npx : List (ℤ × ℤ))
    (cs : Option (SuctionPoint2D → Prop)) (cm : Option (MultiSuctionPoint2D → Prop))
    (n : ℕ) :
    (∀ c ∈ sample_suction_points cfg rng im pc nc npx cs n,
      Real.arccos (clamp1 (dot3 c.axis (0, 0, 1))) <
        deg2rad cfg.max_suction_dir_optical_axis_angle) ∧
    (∀ g ∈ sample_multi_suction_points cfg rng im pc nc npx cm n,
      Real.arccos (clamp1 (dot3 g.approach_axis (0, 0, 1))) <
        deg2rad cfg.max_suction_dir_optical_axis_angle) := by
  constructor
  · simp only [sample_suction_points]
    split
    · simp
    · exact sampler_loop_mem n _ _
        (suction_body_angle cfg rng im pc nc npx _ cs) _ [] (by simp)
  · simp only [sample_multi_suction_points]
    split
    · simp
    · exact sampler_loop_mem n _ _
        (multi_suction_body_angle cfg rng im pc nc npx _ cm) _ [] (by simp)

lemma suction_body_boundary (cfg : SuctionConfig) (rng : GlobalRng) (im : DepthIm)
    (pc nc : ℤ → ℤ → Vec3) (npx : List (ℤ × ℤ)) (idx : List ℕ)
    (cs : Option (SuctionPoint2D → Prop)) (k : ℕ) :
    ∀ c ∈ suction_body cfg rng im pc nc npx idx cs k,
      cfg.min_dist_from_boundary ≤ (c.center.1 : ℝ) ∧
      (c.center.1 : ℝ) ≤ (im.width : ℝ) - cfg.min_dist_from_boundary ∧
      cfg.min_dist_from_boundary ≤ (c.center.2 : ℝ) ∧
      (c.center.2 : ℝ) ≤ (im.height : ℝ) - cfg.min_dist_from_boundary := by
  intro c hc
  revert hc
  simp only [suction_body]
  split
  · simp
  · rename_i hbd
    push_neg at hbd
    obtain ⟨h1, h2, h3, h4⟩ := hbd
    split
    · split
      · intro hc
        simp only [List.mem_singleton] at hc
        subst hc
        exact ⟨h1, h4, h2, h3⟩
      · simp
    · simp

/-- C5 (amended). Boundary rejection holds as stated for the two suction
samplers (their candidate centers are the sampled pixels, checked against
the margin before acceptance) and for the antipodal sampler whenever the
grasp-center perturbation is disabled (`grasp_center_sigma = 0`): the
boundary check reads the UNPERTURBED grasp center, so with a nonzero sigma
a returned center may violate the margin (see the counterexample). The
multi-suction candidate stores a pose, not a pixel; its bound is stated for
the pixel that produced a nonempty iteration. -/
theorem boundary_rejection_bound (cfg : AntipodalConfig) (scfg : SuctionConfig)
    (rng : GlobalRng) (im : DepthIm) (edge_pixels : List (ℤ × ℤ))
    (grad : ℤ × ℤ → Vec2) (maxW : ℝ) (pc nc : ℤ → ℤ → Vec3)
    (npx : List (ℤ × ℤ)) (idx : List ℕ) (cs : Option (SuctionPoint2D → Prop))
    (cm : Option (MultiSuctionPoint2D → Prop)) (n k : ℕ) :
    (∀ c ∈ sample_suction_points scfg rng im pc nc npx cs n,
      scfg.min_dist_from_boundary ≤ (c.center.1 : ℝ) ∧
      (c.center.1 : ℝ) ≤ (im.width : ℝ) - scfg.min_dist_from_boundary ∧
      scfg.min_dist_from_boundary ≤ (c.center.2 : ℝ) ∧
      (c.center.2 : ℝ) ≤ (im.height : ℝ) - scfg.min_dist_from_boundary) ∧
    (multi_suction_body scfg rng im pc nc npx idx cm k ≠ [] →
      scfg.min_dist_from_boundary ≤ ((npx.getD (idx.getD k 0) (0, 0)).2 : ℝ) ∧
      ((npx.getD (idx.getD k 0) (0, 0)).2 : ℝ) ≤
        (im.width : ℝ) - scfg.min_dist_from_boundary ∧
      scfg.min_dist_from_boundary ≤ ((npx.getD (idx.getD k 0) (0, 0)).1 : ℝ) ∧
      ((npx.getD (idx.getD k 0) (0, 0)).1 : ℝ) ≤
        (im.height : ℝ) - scfg.min_dist_from_boundary) ∧
    (cfg.grasp_center_sigma = 0 →
      ∀ g ∈ sample_antipodal_grasps cfg rng im edge_pixels grad maxW n,
        cfg.min_dist_from_boundary ≤ g.center.2 ∧
        g.center.2 ≤ (im.height : ℝ) - cfg.min_dist_from_boundary ∧
        cfg.min_dist_from_boundary ≤ g.center.1 ∧
        g.center.1 ≤ (im.width : ℝ) - cfg.min_dist_from_boundary) := by
  refine ⟨?_, ?_, ?_⟩
  · simp only [sample_suction_points]
    split
    · simp
    · exact sampler_loop_mem n _ _
        (suction_body_boundary scfg rng im pc nc npx _ cs) _ [] (by simp)
  · intro hne
    revert hne
    simp only [multi_suction_body]
    split
    · simp
    · split
      · simp
      · rename_i hbd
        push_neg at hbd
        obtain ⟨h1, h2, h3, h4⟩ := hbd
        intro _
        exact ⟨h1, h4, h2, h3⟩
  · intro hsig
    have hbody : ∀ k0 g, g ∈ antipodal_body cfg rng im
        (fun i => edge_pixels.getD i (0, 0))
        (fun i => surface_normal grad (edge_pixels.getD i (0, 0)))
        (valid_pair_indices edge_pixels grad cfg.friction_coef maxW)
        (rng.choice_pairs (antipodal_pass_indices edge_pixels grad cfg.friction_coef maxW)
          (min cfg.max_rejection_samples
            (antipodal_pass_indices edge_pixels grad cfg.friction_coef maxW).length)) k0 →
        cfg.min_dist_from_boundary ≤ g.center.2 ∧
        g.center.2 ≤ (im.height : ℝ) - cfg.min_dist_from_boundary ∧
        cfg.min_dist_from_boundary ≤ g.center.1 ∧
        g.center.1 ≤ (im.width : ℝ) - cfg.min_dist_from_boundary := by
      intro k0 g hg
      revert hg
      simp only [antipodal_body, hsig, gt_iff_lt, lt_self_iff_false, if_false]
      split
      · simp
      · rename_i hbd
        push_neg at hbd
        obtain ⟨h1, h2, h3, h4⟩ := hbd
        intro hg
        simp only [List.mem_flatMap, List.mem_range] at hg
        obtain ⟨i, _, hgi⟩ := hg
        revert hgi
        split
        · simp
        · intro hgi
          simp only [List.mem_singleton] at hgi
          subst hgi
          exact ⟨h1, h3, h2, h4⟩
    simp only [sample_antipodal_grasps]
    split
    · simp
    split
    · simp
    split
    · simp
    · exact sampler_loop_mem n _ _ hbody _ [] (by simp)

/-- C10. In the single-contact suction sampler a zero surface normal is not
skipped: the candidate axis is the zero vector, the computed optical-axis
angle is `arccos(0) = pi/2` exactly, the candidate is kept iff `pi/2` is
below the radian limit — equivalently iff the configured degree limit
exceeds 90 — and a kept candidate carries the zero axis; the multi-suction
sampler instead skips the pixel outright. -/
theorem suction_zero_normal_behavior (cfg : SuctionConfig) (rng : GlobalRng)
    (im : DepthIm) (pc nc : ℤ → ℤ → Vec3) (npx : List (ℤ × ℤ)) (idx : List ℕ)
    (k : ℕ)
    (h0 : nc (npx.getD (idx.getD k 0) (0, 0)).1 (npx.getD (idx.getD k 0) (0, 0)).2
      = (0, 0, 0))
    (hbd : ¬(((npx.getD (idx.getD k 0) (0, 0)).2 : ℝ) < cfg.min_dist_from_boundary ∨
      ((npx.getD (idx.getD k 0) (0, 0)).1 : ℝ) < cfg.min_dist_from_boundary ∨
      ((npx.getD (idx.getD k 0) (0, 0)).1 : ℝ) >
        (im.height : ℝ) - cfg.min_dist_from_boundary ∨
      ((npx.getD (idx.getD k 0) (0, 0)).2 : ℝ) >
        (im.width : ℝ) - cfg.min_dist_from_boundary)) :
    Real.arccos (clamp1 (dot3 ((0 : ℝ), (0 : ℝ), (0 : ℝ)) (0, 0, 1))) = Real.pi / 2 ∧
    suction_body cfg rng im pc nc npx idx none k =
      (if Real.pi / 2 < deg2rad cfg.max_suction_dir_optical_axis_angle then
        [⟨((npx.getD (idx.getD k 0) (0, 0)).2, (npx.getD (idx.getD k 0) (0, 0)).1),
          (0, 0, 0),
          (pc (npx.getD (idx.getD k 0) (0, 0)).1 (npx.getD (idx.getD k 0) (0, 0)).2).2.2
            + rng.depth_perturb k⟩]
      else []) ∧
    (Real.pi / 2 < deg2rad cfg.max_suction_dir_optical_axis_angle ↔
      90 < cfg.max_suction_dir_optical_axis_angle) ∧
    multi_suction_body cfg rng im pc nc npx idx none k = [] := by
  have hclamp : clamp1 (dot3 ((0 : ℝ), (0 : ℝ), (0 : ℝ)) (0, 0, 1)) = 0 := by
    simp [clamp1, dot3]
  have hpsi : Real.arccos (clamp1 (dot3 ((0 : ℝ), (0 : ℝ), (0 : ℝ)) (0, 0, 1)))
      = Real.pi / 2 := by
    rw [hclamp, Real.arccos_zero]
  refine ⟨hpsi, ?_, ?_, ?_⟩
  · simp only [suction_body, h0, if_neg hbd]
    have hax : v3neg ((0 : ℝ), (0 : ℝ), (0 : ℝ)) = ((0 : ℝ), (0 : ℝ), (0 : ℝ)) := by
      simp [v3neg]
    rw [hax]
    rw [hpsi]
    split
    · simp [Option.elim]
    · rfl
  · unfold deg2rad
    rw [show Real.pi / 2 = 90 * Real.pi / 180 by ring]
    constructor
    · intro h
      nlinarith [Real.pi_pos]
    · intro h
      nlinarith [Real.pi_pos]
  · simp only [multi_suction_body, h0]
    have hax : v3neg ((0 : ℝ), (0 : ℝ), (0 : ℝ)) = ((0 : ℝ), (0 : ℝ), (0 : ℝ)) := by
      simp [v3neg]
    have hz : norm3 ((0 : ℝ), (0 : ℝ), (0 : ℝ)) = 0 := by
      simp [norm3]
    rw [hax, if_pos hz]

/-- C10 witness: the behavior at a concrete pixel with a zero normal, a
120-degree limit and no boundary margin. -/
theorem suction_zero_normal_behavior_witness :
    Real.arccos (clamp1 (dot3 ((0 : ℝ), (0 : ℝ), (0 : ℝ)) (0, 0, 1))) = Real.pi / 2 ∧
    suction_body c10Cfg cexRng cexIm c10Pc c10Nc [(2, 2)] [0] none 0 =
      (if Real.pi / 2 < deg2rad c10Cfg.max_suction_dir_optical_axis_angle then
        [⟨(((([((2 : ℤ), (2 : ℤ))].getD ([0].getD 0 0) (0, 0))).2),
          (([((2 : ℤ), (2 : ℤ))].getD ([0].getD 0 0) (0, 0))).1),
          (0, 0, 0),
          (c10Pc (([((2 : ℤ), (2 : ℤ))].getD ([0].getD 0 0) (0, 0))).1
            (([((2 : ℤ), (2 : ℤ))].getD ([0].getD 0 0) (0, 0))).2).2.2
            + cexRng.depth_perturb 0⟩]
      else []) ∧
    (Real.pi / 2 < deg2rad c10Cfg.max_suction_dir_optical_axis_angle ↔
      90 < c10Cfg.max_suction_dir_optical_axis_angle) ∧
    multi_suction_body c10Cfg cexRng cexIm c10Pc c10Nc [(2, 2)] [0] none 0 = [] := by
  have h := suction_zero_normal_behavior c10Cfg cexRng cexIm c10Pc c10Nc
    [(2, 2)] [0] 0 rfl (by
      intro hor
      simp only [List.getD, c10Cfg] at hor
      norm_num [cexIm] at hor)
  simpa using h


/-! ## Arithmetic facts for the evaluated runs -/

lemma sqrt_four : Real.sqrt 4 = 2 := by
  rw [show (4 : ℝ) = 2 ^ 2 by norm_num, Real.sqrt_sq (by norm_num : (0 : ℝ) ≤ 2)]

lemma cos_arctan_one_lt_one : Real.cos (Real.arctan 1) < 1 := by
  rw [Real.cos_arctan]
  have h2 : 1 < Real.sqrt 2 := by
    have h := Real.sqrt_lt_sqrt (by norm_num : (0 : ℝ) ≤ 1) (by norm_num : (1 : ℝ) < 2)
    rwa [Real.sqrt_one] at h
  rw [show (1 : ℝ) + 1 ^ 2 = 2 by norm_num]
  rw [div_lt_one (by positivity)]
  exact h2

lemma neg_one_lt_neg_cos_arctan_one : (-1 : ℝ) < -Real.cos (Real.arctan 1) :=
  neg_lt_neg cos_arctan_one_lt_one

lemma c8_n0 : surface_normal c8Grad (0, 0) = (0, -1) := by
  have hg : c8Grad (0, 0) = (0, -1) := by simp [c8Grad]
  have hn : norm2 ((0 : ℝ), (-1 : ℝ)) = 1 := by
    simp [norm2]
  unfold surface_normal
  rw [hg, if_neg (by rw [hn]; norm_num), hn]
  unfold sdiv2
  norm_num

lemma c8_n1 : surface_normal c8Grad (0, 2) = (0, 1) := by
  have hg : c8Grad (0, 2) = (0, 1) := by
    simp only [c8Grad]
    rw [if_neg (by simp)]
  have hn : norm2 ((0 : ℝ), (1 : ℝ)) = 1 := by
    simp [norm2]
  unfold surface_normal
  rw [hg, if_neg (by rw [hn]; norm_num), hn]
  unfold sdiv2
  norm_num

lemma c8_pdist : pdist ((0 : ℤ), (0 : ℤ)) (0, 2) = 2 := by
  unfold pdist
  norm_num [sqrt_four]

/-- C8 counterexample: a pair at pixel distance exactly equal to the maximum
grasp width in pixels, with admissible normals, is NOT kept by the first
prune (the comparison `dists < max_grasp_width_px` is strict), though the
claim's half-open interval `(0, maxW]` would keep it. -/
theorem first_prune_max_width_cex :
    (0, 1) ∉ valid_pair_indices c8Pix c8Grad 1 2 ∧
    dot2 (surface_normal c8Grad ((0 : ℤ), (0 : ℤ))) (surface_normal c8Grad (0, 2)) <
      -Real.cos (Real.arctan 1) ∧
    pdist ((0 : ℤ), (0 : ℤ)) (0, 2) = 2 ∧ (0 : ℝ) < pdist ((0 : ℤ), (0 : ℤ)) (0, 2) := by
  refine ⟨?_, ?_, c8_pdist, by rw [c8_pdist]; norm_num⟩
  · intro hmem
    unfold valid_pair_indices at hmem
    rw [List.mem_filter] at hmem
    obtain ⟨-, hp⟩ := hmem
    rw [decide_eq_true_eq] at hp
    have hlt : pdist ((0 : ℤ), (0 : ℤ)) ((0 : ℤ), (2 : ℤ)) < 2 := hp.2.1
    rw [c8_pdist] at hlt
    exact absurd hlt (by norm_num)
  · rw [c8_n0, c8_n1]
    have hd : dot2 ((0 : ℝ), (-1 : ℝ)) ((0 : ℝ), (1 : ℝ)) = -1 := by
      simp [dot2]
    rw [hd]
    exact neg_one_lt_neg_cos_arctan_one


lemma cex_n0 : surface_normal cexGrad (2, 2) = (-1, 0) := by
  have hg : cexGrad (2, 2) = (-1, 0) := by simp [cexGrad]
  have hn : norm2 ((-1 : ℝ), (0 : ℝ)) = 1 := by
    simp [norm2]
  unfold surface_normal
  rw [hg, if_neg (by rw [hn]; norm_num), hn]
  unfold sdiv2
  norm_num

lemma cex_n1 : surface_normal cexGrad (4, 2) = (1, 0) := by
  have hg : cexGrad (4, 2) = (1, 0) := by
    simp only [cexGrad]
    rw [if_neg (by simp)]
  have hn : norm2 ((1 : ℝ), (0 : ℝ)) = 1 := by
    simp [norm2]
  unfold surface_normal
  rw [hg, if_neg (by rw [hn]; norm_num), hn]
  unfold sdiv2
  norm_num

lemma cex_pdist01 : pdist ((2 : ℤ), (2 : ℤ)) (4, 2) = 2 := by
  unfold pdist
  norm_num [sqrt_four]

lemma cex_pdist10 : pdist ((4 : ℤ), (2 : ℤ)) (2, 2) = 2 := by
  unfold pdist
  norm_num [sqrt_four]

lemma cex_fp01 : first_prune (fun i => cexPix.getD i (0, 0))
    (fun i => surface_normal cexGrad (cexPix.getD i (0, 0))) 1 10 (0, 1) := by
  refine ⟨?_, ?_, ?_⟩
  · show dot2 (surface_normal cexGrad (2, 2)) (surface_normal cexGrad (4, 2)) <
      -Real.cos (Real.arctan 1)
    rw [cex_n0, cex_n1]
    have hd : dot2 ((-1 : ℝ), (0 : ℝ)) ((1 : ℝ), (0 : ℝ)) = -1 := by simp [dot2]
    rw [hd]
    exact neg_one_lt_neg_cos_arctan_one
  · show pdist ((2 : ℤ), (2 : ℤ)) (4, 2) < 10
    rw [cex_pdist01]; norm_num
  · show pdist ((2 : ℤ), (2 : ℤ)) (4, 2) > 0
    rw [cex_pdist01]; norm_num

lemma cex_fp10 : first_prune (fun i => cexPix.getD i (0, 0))
    (fun i => surface_normal cexGrad (cexPix.getD i (0, 0))) 1 10 (1, 0) := by
  refine ⟨?_, ?_, ?_⟩
  · show dot2 (surface_normal cexGrad (4, 2)) (surface_normal cexGrad (2, 2)) <
      -Real.cos (Real.arctan 1)
    rw [cex_n0, cex_n1]
    have hd : dot2 ((1 : ℝ), (0 : ℝ)) ((-1 : ℝ), (0 : ℝ)) = -1 := by simp [dot2]
    rw [hd]
    exact neg_one_lt_neg_cos_arctan_one
  · show pdist ((4 : ℤ), (2 : ℤ)) (2, 2) < 10
    rw [cex_pdist10]; norm_num
  · show pdist ((4 : ℤ), (2 : ℤ)) (2, 2) > 0
    rw [cex_pdist10]; norm_num

lemma cex_fp_not00 : ¬first_prune (fun i => cexPix.getD i (0, 0))
    (fun i => surface_normal cexGrad (cexPix.getD i (0, 0))) 1 10 (0, 0) := by
  intro hp
  have h : pdist ((2 : ℤ), (2 : ℤ)) (2, 2) > 0 := hp.2.2
  rw [show pdist ((2 : ℤ), (2 : ℤ)) (2, 2) = 0 from by unfold pdist; norm_num] at h
  exact absurd h (by norm_num)

lemma cex_fp_not11 : ¬first_prune (fun i => cexPix.getD i (0, 0))
    (fun i => surface_normal cexGrad (cexPix.getD i (0, 0))) 1 10 (1, 1) := by
  intro hp
  have h : pdist ((4 : ℤ), (2 : ℤ)) (4, 2) > 0 := hp.2.2
  rw [show pdist ((4 : ℤ), (2 : ℤ)) (4, 2) = 0 from by unfold pdist; norm_num] at h
  exact absurd h (by norm_num)

lemma cex_valid : valid_pair_indices cexPix cexGrad 1 10 = [(0, 1), (1, 0)] := by
  unfold valid_pair_indices
  rw [show cexPix.length = 2 from rfl]
  rw [show pairIdx 2 = [(0, 0), (0, 1), (1, 0), (1, 1)] from by decide]
  rw [List.filter_cons_of_neg (by simp only [decide_eq_true_eq]; exact cex_fp_not00),
      List.filter_cons_of_pos (by simp only [decide_eq_true_eq]; exact cex_fp01),
      List.filter_cons_of_pos (by simp only [decide_eq_true_eq]; exact cex_fp10),
      List.filter_cons_of_neg (by simp only [decide_eq_true_eq]; exact cex_fp_not11),
      List.filter_nil]

lemma cex_sp0 : antipodal_second_pass (ivec ((2 : ℤ), (2 : ℤ))) (ivec ((4 : ℤ), (2 : ℤ)))
    (surface_normal cexGrad (cexPix.getD 0 (0, 0)))
    (surface_normal cexGrad (cexPix.getD 1 (0, 0))) 1 := by
  show antipodal_second_pass (ivec ((2 : ℤ), (2 : ℤ))) (ivec ((4 : ℤ), (2 : ℤ)))
    (surface_normal cexGrad (2, 2)) (surface_normal cexGrad (4, 2)) 1
  rw [cex_n0, cex_n1]
  unfold antipodal_second_pass
  have h1 : ivec ((2 : ℤ), (2 : ℤ)) - ivec ((4 : ℤ), (2 : ℤ)) = ((-2 : ℝ), (0 : ℝ)) := by
    unfold ivec
    rw [Prod.mk_sub_mk]
    norm_num
  have h2 : norm2 ((-2 : ℝ), (0 : ℝ)) = 2 := by
    unfold norm2
    norm_num [sqrt_four]
  have hv : sdiv2 (ivec ((2 : ℤ), (2 : ℤ)) - ivec ((4 : ℤ), (2 : ℤ)))
      (norm2 (ivec ((2 : ℤ), (2 : ℤ)) - ivec ((4 : ℤ), (2 : ℤ)))) = ((-1 : ℝ), (0 : ℝ)) := by
    rw [h1, h2]
    unfold sdiv2
    norm_num
  rw [hv]
  constructor
  · rw [show dot2 ((-1 : ℝ), (0 : ℝ)) ((-1 : ℝ), (0 : ℝ)) = 1 from by simp [dot2]]
    rw [show clamp1 1 = 1 from by simp [clamp1]]
    rw [Real.arccos_one, Real.arctan_one]
    positivity
  · rw [show -((-1 : ℝ), (0 : ℝ)) = ((1 : ℝ), (0 : ℝ)) from by
      rw [Prod.neg_mk]; norm_num]
    rw [show dot2 ((1 : ℝ), (0 : ℝ)) ((1 : ℝ), (0 : ℝ)) = 1 from by simp [dot2]]
    rw [show clamp1 1 = 1 from by simp [clamp1]]
    rw [Real.arccos_one, Real.arctan_one]
    positivity

lemma cex_sp1 : antipodal_second_pass (ivec ((4 : ℤ), (2 : ℤ))) (ivec ((2 : ℤ), (2 : ℤ)))
    (surface_normal cexGrad (cexPix.getD 1 (0, 0)))
    (surface_normal cexGrad (cexPix.getD 0 (0, 0))) 1 := by
  show antipodal_second_pass (ivec ((4 : ℤ), (2 : ℤ))) (ivec ((2 : ℤ), (2 : ℤ)))
    (surface_normal cexGrad (4, 2)) (surface_normal cexGrad (2, 2)) 1
  rw [cex_n0, cex_n1]
  unfold antipodal_second_pass
  have h1 : ivec ((4 : ℤ), (2 : ℤ)) - ivec ((2 : ℤ), (2 : ℤ)) = ((2 : ℝ), (0 : ℝ)) := by
    unfold ivec
    rw [Prod.mk_sub_mk]
    norm_num
  have h2 : norm2 ((2 : ℝ), (0 : ℝ)) = 2 := by
    unfold norm2
    norm_num [sqrt_four]
  have hv : sdiv2 (ivec ((4 : ℤ), (2 : ℤ)) - ivec ((2 : ℤ), (2 : ℤ)))
      (norm2 (ivec ((4 : ℤ), (2 : ℤ)) - ivec ((2 : ℤ), (2 : ℤ)))) = ((1 : ℝ), (0 : ℝ)) := by
    rw [h1, h2]
    unfold sdiv2
    norm_num
  rw [hv]
  constructor
  · rw [show dot2 ((1 : ℝ), (0 : ℝ)) ((1 : ℝ), (0 : ℝ)) = 1 from by simp [dot2]]
    rw [show clamp1 1 = 1 from by simp [clamp1]]
    rw [Real.arccos_one, Real.arctan_one]
    positivity
  · rw [show -((1 : ℝ), (0 : ℝ)) = ((-1 : ℝ), (0 : ℝ)) from by
      rw [Prod.neg_mk]; norm_num]
    rw [show dot2 ((-1 : ℝ), (0 : ℝ)) ((-1 : ℝ), (0 : ℝ)) = 1 from by simp [dot2]]
    rw [show clamp1 1 = 1 from by simp [clamp1]]
    rw [Real.arccos_one, Real.arctan_one]
    positivity

lemma cex_anti : antipodal_pass_indices cexPix cexGrad 1 10 = [0, 1] := by
  unfold antipodal_pass_indices
  rw [cex_valid]
  rw [show List.range ([((0 : ℕ), (1 : ℕ)), (1, 0)]).length = [0, 1] from by decide]
  rw [List.filter_cons_of_pos (by simp only [decide_eq_true_eq]; exact cex_sp0),
      List.filter_cons_of_pos (by simp only [decide_eq_true_eq]; exact cex_sp1),
      List.filter_nil]

lemma cex_winMin : winMin cexIm (3, 2) 1 1 = 5 := by
  unfold winMin
  rw [show ⌊(3 : ℝ) - ((1 : ℤ) : ℝ)⌋ = 2 from by
    rw [show (3 : ℝ) - ((1 : ℤ) : ℝ) = ((2 : ℤ) : ℝ) from by norm_num]
    exact Int.floor_intCast 2]
  rw [show ⌊(3 : ℝ) + ((1 : ℤ) : ℝ)⌋ = 4 from by
    rw [show (3 : ℝ) + ((1 : ℤ) : ℝ) = ((4 : ℤ) : ℝ) from by norm_num]
    exact Int.floor_intCast 4]
  rw [show ⌊(2 : ℝ) - ((1 : ℤ) : ℝ)⌋ = 1 from by
    rw [show (2 : ℝ) - ((1 : ℤ) : ℝ) = ((1 : ℤ) : ℝ) from by norm_num]
    exact Int.floor_intCast 1]
  rw [show ⌊(2 : ℝ) + ((1 : ℤ) : ℝ)⌋ = 3 from by
    rw [show (2 : ℝ) + ((1 : ℤ) : ℝ) = ((3 : ℤ) : ℝ) from by norm_num]
    exact Int.floor_intCast 3]
  rw [show intRange 2 4 = [2, 3] from by decide]
  rw [show intRange 1 3 = [1, 2] from by decide]
  simp [cexIm, listMin]


lemma cex_axis : sdiv2 (ivec ((4 : ℤ), (2 : ℤ)) - ivec ((2 : ℤ), (2 : ℤ)))
    (norm2 (ivec ((4 : ℤ), (2 : ℤ)) - ivec ((2 : ℤ), (2 : ℤ)))) = ((1 : ℝ), (0 : ℝ)) := by
  have h1 : ivec ((4 : ℤ), (2 : ℤ)) - ivec ((2 : ℤ), (2 : ℤ)) = ((2 : ℝ), (0 : ℝ)) := by
    unfold ivec
    rw [Prod.mk_sub_mk]
    norm_num
  have h2 : norm2 ((2 : ℝ), (0 : ℝ)) = 2 := by
    unfold norm2
    norm_num [sqrt_four]
  rw [h1, h2]
  unfold sdiv2
  norm_num

lemma cex_body_eval (cfg : AntipodalConfig) (rng : GlobalRng)
    (hh : cfg.depth_sample_win_height = 1) (hw : cfg.depth_sample_win_width = 1)
    (hbd : cfg.min_dist_from_boundary ≤ 2) :
    antipodal_body cfg rng cexIm (fun i => cexPix.getD i (0, 0))
      (fun i => surface_normal cexGrad (cexPix.getD i (0, 0)))
      [(0, 1), (1, 0)] [0] 0 =
    (List.range cfg.depth_samples).flatMap fun i =>
      [{ center :=
           if cfg.grasp_center_sigma > 0 then ((2 : ℝ), (3 : ℝ)) + rng.center_perturb 0
           else ((2 : ℝ), (3 : ℝ))
         angle :=
           if cfg.grasp_angle_sigma > 0 then Real.pi / 2 + rng.angle_perturb 0
           else Real.pi / 2
         depth := 5 + cfg.min_depth_offset +
           (5 + cfg.max_depth_offset - (5 + cfg.min_depth_offset)) * rng.rand 0 i
         width := cfg.gripper_width
         contact_points := (((2 : ℤ), (2 : ℤ)), ((4 : ℤ), (2 : ℤ)))
         contact_normals := (((-1 : ℝ), (0 : ℝ)), ((1 : ℝ), (0 : ℝ))) }] := by
  simp only [antipodal_body, cexPix, List.getD_cons_zero, List.getD_cons_succ,
    cex_n0, cex_n1, hh, hw]
  have hc1 : (((2 : ℤ) + 4 : ℤ) : ℝ) / 2 = 3 := by norm_num
  have hc2 : (((2 : ℤ) + 2 : ℤ) : ℝ) / 2 = 2 := by norm_num
  have h2 : (sdiv2 (ivec ((4 : ℤ), (2 : ℤ)) - ivec ((2 : ℤ), (2 : ℤ)))
      (norm2 (ivec ((4 : ℤ), (2 : ℤ)) - ivec ((2 : ℤ), (2 : ℤ))))).2 = 0 := by
    rw [cex_axis]
  simp only [hc1, hc2]
  have hcond : ¬((3 : ℝ) < cfg.min_dist_from_boundary ∨
      (2 : ℝ) < cfg.min_dist_from_boundary ∨
      (3 : ℝ) > (cexIm.height : ℝ) - cfg.min_dist_from_boundary ∨
      (2 : ℝ) > (cexIm.width : ℝ) - cfg.min_dist_from_boundary) := by
    have h10h : ((cexIm.height : ℤ) : ℝ) = 10 := by norm_num [cexIm]
    have h10w : ((cexIm.width : ℤ) : ℝ) = 10 := by norm_num [cexIm]
    push_neg
    refine ⟨by linarith, by linarith, ?_, ?_⟩
    · rw [h10h]; linarith
    · rw [h10w]; linarith
  rw [if_neg hcond]
  simp only [h2, cex_winMin]
  simp


lemma cex_run (cfg : AntipodalConfig) (hfc : cfg.friction_coef = 1)
    (hmr : cfg.max_rejection_samples = 1)
    (hh : cfg.depth_sample_win_height = 1) (hw : cfg.depth_sample_win_width = 1)
    (hbd : cfg.min_dist_from_boundary ≤ 2) (n : ℕ) (hn : 0 < n) :
    sample_antipodal_grasps cfg cexRng cexIm cexPix cexGrad 10 n =
    (List.range cfg.depth_samples).flatMap fun i =>
      [{ center :=
           if cfg.grasp_center_sigma > 0 then ((2 : ℝ), (3 : ℝ)) + cexRng.center_perturb 0
           else ((2 : ℝ), (3 : ℝ))
         angle :=
           if cfg.grasp_angle_sigma > 0 then Real.pi / 2 + cexRng.angle_perturb 0
           else Real.pi / 2
         depth := 5 + cfg.min_depth_offset +
           (5 + cfg.max_depth_offset - (5 + cfg.min_depth_offset)) * cexRng.rand 0 i
         width := cfg.gripper_width
         contact_points := (((2 : ℤ), (2 : ℤ)), ((4 : ℤ), (2 : ℤ)))
         contact_normals := (((-1 : ℝ), (0 : ℝ)), ((1 : ℝ), (0 : ℝ))) }] := by
  unfold sample_antipodal_grasps
  rw [hfc, cex_valid, cex_anti, hmr]
  rw [if_neg (by decide)]
  rw [if_neg (by decide)]
  rw [if_neg (by decide)]
  rw [show min 1 ([(0 : ℕ), 1]).length = 1 from rfl]
  rw [show cexRng.choice_pairs [0, 1] 1 = [0] from rfl]
  rw [show List.range 1 = [0] from rfl]
  rw [show sampler_loop n (antipodal_body cfg cexRng cexIm (fun i => cexPix.getD i (0, 0))
      (fun i => surface_normal cexGrad (cexPix.getD i (0, 0))) [(0, 1), (1, 0)] [0]) [0] []
      = antipodal_body cfg cexRng cexIm (fun i => cexPix.getD i (0, 0))
      (fun i => surface_normal cexGrad (cexPix.getD i (0, 0))) [(0, 1), (1, 0)] [0] 0 from by
    simp [sampler_loop, hn]]
  exact cex_body_eval cfg cexRng hh hw hbd

/-- C1 counterexample: with `depth_samples_per_grasp = 2` and `num_samples =
1` the antipodal sampler returns 2 candidates — the inner depth loop appends
both samples of the accepted pair without re-checking the requested count. -/
theorem sampler_candidate_count_cex :
    1 < (sample_antipodal_grasps c1Cfg cexRng cexIm cexPix cexGrad 10 1).length := by
  rw [cex_run c1Cfg rfl rfl rfl rfl
    (by rw [show c1Cfg.min_dist_from_boundary = 0 from rfl]; norm_num) 1 (by norm_num)]
  rw [show c1Cfg.depth_samples = 2 from rfl]
  rw [show List.range 2 = [0, 1] from rfl]
  simp

/-- C2. With `depth_sampling_mode = MIN` the sampler still draws a
uniform-random depth: at the evaluated input the returned grasp's depth is
5 + 1/20, not the window minimum plus the minimum offset (5), and not what
`_sample_depth` (which implements the MIN mode but is never called by
`_sample_antipodal_grasps`) would return. -/
theorem depth_sampling_mode_ignored :
    c2Cfg.depth_sampling_mode = DepthSamplingMode.min ∧
    (∃ g, sample_antipodal_grasps c2Cfg cexRng cexIm cexPix cexGrad 10 1 = [g] ∧
      g.depth = 5 + 1 / 20 ∧
      g.depth ≠ winMin cexIm (3, 2) 1 1 + c2Cfg.min_depth_offset ∧
      g.depth ≠ sample_depth c2Cfg.depth_sampling_mode (cexRng.rand 0 0)
        (winMin cexIm (3, 2) 1 1 + c2Cfg.min_depth_offset)
        (winMin cexIm (3, 2) 1 1 + c2Cfg.max_depth_offset)) := by
  refine ⟨rfl, ?_⟩
  rw [cex_run c2Cfg rfl rfl rfl rfl
    (by rw [show c2Cfg.min_dist_from_boundary = 0 from rfl]; norm_num) 1 (by norm_num)]
  rw [show c2Cfg.depth_samples = 1 from rfl]
  rw [show List.range 1 = [0] from rfl]
  rw [List.flatMap_cons, List.flatMap_nil, List.append_nil]
  refine ⟨_, rfl, ?_, ?_, ?_⟩
  · show 5 + c2Cfg.min_depth_offset +
      (5 + c2Cfg.max_depth_offset - (5 + c2Cfg.min_depth_offset)) * cexRng.rand 0 0
      = 5 + 1 / 20
    rw [show c2Cfg.min_depth_offset = 0 from rfl,
        show c2Cfg.max_depth_offset = 1 / 10 from rfl,
        show cexRng.rand 0 0 = 1 / 2 from rfl]
    norm_num
  · show 5 + c2Cfg.min_depth_offset +
      (5 + c2Cfg.max_depth_offset - (5 + c2Cfg.min_depth_offset)) * cexRng.rand 0 0
      ≠ winMin cexIm (3, 2) 1 1 + c2Cfg.min_depth_offset
    rw [cex_winMin, show c2Cfg.min_depth_offset = 0 from rfl,
        show c2Cfg.max_depth_offset = 1 / 10 from rfl,
        show cexRng.rand 0 0 = 1 / 2 from rfl]
    norm_num
  · show 5 + c2Cfg.min_depth_offset +
      (5 + c2Cfg.max_depth_offset - (5 + c2Cfg.min_depth_offset)) * cexRng.rand 0 0
      ≠ sample_depth c2Cfg.depth_sampling_mode (cexRng.rand 0 0)
        (winMin cexIm (3, 2) 1 1 + c2Cfg.min_depth_offset)
        (winMin cexIm (3, 2) 1 1 + c2Cfg.max_depth_offset)
    rw [cex_winMin, show c2Cfg.min_depth_offset = 0 from rfl,
        show c2Cfg.max_depth_offset = 1 / 10 from rfl,
        show cexRng.rand 0 0 = 1 / 2 from rfl,
        show c2Cfg.depth_sampling_mode = DepthSamplingMode.min from rfl]
    rw [show sample_depth DepthSamplingMode.min (1 / 2) (5 + 0) (5 + 1 / 10) = 5 + 0 from by
      unfold sample_depth
      rw [if_neg (by simp), if_pos rfl]]
    norm_num

/-- C5 counterexample: with `grasp_center_sigma = 1` the boundary check is
performed on the UNPERTURBED center, and the returned grasp's perturbed
center has x = -3, violating the one-pixel margin from the left image
edge. -/
theorem boundary_rejection_cex :
    c5Cfg.grasp_center_sigma > 0 ∧
    (∃ g, sample_antipodal_grasps c5Cfg cexRng cexIm cexPix cexGrad 10 1 = [g] ∧
      g.center.1 < c5Cfg.min_dist_from_boundary) := by
  constructor
  · rw [show c5Cfg.grasp_center_sigma = 1 from rfl]
    norm_num
  rw [cex_run c5Cfg rfl rfl rfl rfl
    (by rw [show c5Cfg.min_dist_from_boundary = 1 from rfl]; norm_num) 1 (by norm_num)]
  rw [show c5Cfg.depth_samples = 1 from rfl]
  rw [show List.range 1 = [0] from rfl]
  rw [List.flatMap_cons, List.flatMap_nil, List.append_nil]
  refine ⟨_, rfl, ?_⟩
  show (if c5Cfg.grasp_center_sigma > 0 then ((2 : ℝ), (3 : ℝ)) + cexRng.center_perturb 0
      else ((2 : ℝ), (3 : ℝ))).1 < c5Cfg.min_dist_from_boundary
  rw [if_pos (by rw [show c5Cfg.grasp_center_sigma = 1 from rfl]; norm_num)]
  rw [show cexRng.center_perturb 0 = ((-5 : ℝ), (-5 : ℝ)) from rfl]
  rw [show c5Cfg.min_dist_from_boundary = 1 from rfl]
  rw [Prod.fst_add]
  norm_num


/-- C6. The vectorized second-pass antipodality test of
`_sample_antipodal_grasps` accepts a pair exactly when the scalar
`force_closure` test accepts it: its normalized axis `(p1-p2)/|p1-p2|` is
the negation of `force_closure`'s `(p2-p1)/|p2-p1|`, which maps its two
clamped dot products onto `force_closure`'s `n1.(-v)` and `n2.v`. -/
theorem second_pass_iff_force_closure (p1 p2 n1 n2 : Vec2) (mu : ℝ) (hne : p1 ≠ p2) :
    antipodal_second_pass p1 p2 n1 n2 mu ↔ force_closure p1 p2 n1 n2 mu := by
  unfold antipodal_second_pass force_closure
  rw [norm2_sub_comm p1 p2, sdiv2_sub_neg p1 p2, neg_neg]

/-- C6 witness: the equivalence applied to a concrete surviving pair. -/
theorem second_pass_iff_force_closure_witness :
    ((0, 0) : Vec2) ≠ ((2, 0) : Vec2) ∧
      (antipodal_second_pass (0, 0) (2, 0) (-1, 0) (1, 0) 1 ↔
        force_closure (0, 0) (2, 0) (-1, 0) (1, 0) 1) :=
  ⟨by norm_num [Prod.ext_iff],
   second_pass_iff_force_closure (0, 0) (2, 0) (-1, 0) (1, 0) 1
     (by norm_num [Prod.ext_iff])⟩

/-- C7. `force_closure` is symmetric under swapping `(p1, n1)` with
`(p2, n2)`: the connecting axis flips sign, which exchanges the two
friction-cone conditions. -/
theorem force_closure_symm (p1 p2 n1 n2 : Vec2) (mu : ℝ) (hne : p1 ≠ p2)
    (hmu : 0 ≤ mu) :
    (force_closure p1 p2 n1 n2 mu ↔ force_closure p2 p1 n2 n1 mu) := by
  unfold force_closure
  rw [norm2_sub_comm p1 p2, sdiv2_sub_neg p1 p2, neg_neg]
  exact and_comm

/-- C7 witness: symmetry applied at a concrete pair of distinct contacts. -/
theorem force_closure_symm_witness :
    ((0, 0) : Vec2) ≠ ((2, 0) : Vec2) ∧ (0 : ℝ) ≤ 1 ∧
      (force_closure (0, 0) (2, 0) (-1, 0) (1, 0) 1 ↔
        force_closure (2, 0) (0, 0) (1, 0) (-1, 0) 1) :=
  ⟨by norm_num [Prod.ext_iff], by norm_num,
   force_closure_symm (0, 0) (2, 0) (-1, 0) (1, 0) 1
     (by norm_num [Prod.ext_iff]) (by norm_num)⟩

end GQCNN

